import Mathlib

/-!
Shallow embedding of the `csiread` CSI-parser front end (`src/csiread/core.py`)
together with spec-modelled fragments of the `_csiread` extension it wraps.

Conventions:
* Python byte strings and numpy columns become `List Nat` / `List Int`.
* numpy `uint32` values are `Nat` carried with explicit `< 2^32` bounds where a
  claim depends on the 32-bit width; the bit operations `&`, `>>` of the source
  are `&&&`, `>>>` on `Nat`, which agree with numpy on in-range values.
* `astype('i1')` (two's-complement truncation to a signed byte) becomes `toInt8`.
* Fallible lookups (`None[index]`, out-of-range numpy indexing) become `Option`.
-/

namespace Csiread

/-- `astype('i1').astype(int)` of numpy applied to a nonnegative value: keep the
low 8 bits and reinterpret them as a two's-complement signed byte. -/
def toInt8 (n : Nat) : Int :=
  if n % 256 < 128 then (n % 256 : Nat) else (n % 256 : Nat) - 256

/-- The per-record content of the `if` branch of `NexmonPull46.__pull46`
(core.py lines 640-643): `rssi = i1((magic & 0x00ff0000) >> 16)`,
`fc = (magic & 0xff000000) >> 24`, `magic &= 0x0000ffff`. -/
def layoutA (m : Nat) : Int × Nat × Nat :=
  (toInt8 ((m &&& 0x00ff0000) >>> 16), (m &&& 0xff000000) >>> 24, m &&& 0x0000ffff)

/-- The per-record content of the `else` branch of `NexmonPull46.__pull46`
(core.py lines 645-648): `rssi = i1((magic & 0x0000ff00) >> 8)`,
`fc = magic & 0x000000ff`, `magic = (magic & 0xffff0000) >> 16`. -/
def layoutB (m : Nat) : Int × Nat × Nat :=
  (toInt8 ((m &&& 0x0000ff00) >>> 8), m &&& 0x000000ff, (m &&& 0xffff0000) >>> 16)

/-- The columnar record buffer of a `Nexmon` / `NexmonPull46` session: one list
per per-packet field (core.py `Nexmon` docstring attributes), plus the
`rssi` / `fc` columns that `NexmonPull46.__init__` initialises to `None`
(hence `Option`). The pcap timing columns `sec`, `usec`, `caplen`, `wirelen`
are carried as well, since the buffer holds them. -/
structure NexmonState where
  sec : List Int
  usec : List Int
  caplen : List Int
  wirelen : List Int
  magic : List Nat
  src_addr : List (List Int)
  seq : List Int
  core : List Int
  spatial : List Int
  chan_spec : List Int
  chip_version : List Int
  csi : List (List Int)
  rssi : Option (List Int)
  fc : Option (List Nat)
  deriving DecidableEq

/-- The buffer of a freshly constructed session: every column empty and, per
`NexmonPull46.__init__` (core.py lines 604-608), `rssi = None`, `fc = None`. -/
def Nexmon_emptyState : NexmonState :=
  { sec := [], usec := [], caplen := [], wirelen := [], magic := [],
    src_addr := [], seq := [], core := [], spatial := [], chan_spec := [],
    chip_version := [], csi := [], rssi := none, fc := none }

/-- `NexmonPull46.__pull46` (core.py lines 638-648).  The branch is chosen once
from `magic[0] & 0x0000ffff == 0x1111` and then applied, vectorised, to every
record of the buffer.  `rssi` and `fc` are computed from the original `magic`
column before `magic` itself is overwritten, exactly as in the source.
(On an empty buffer the Python source raises `IndexError` at `magic[0]`;
that state is modelled as unchanged and is never reached by the claims.) -/
def pull46 (s : NexmonState) : NexmonState :=
  match s.magic.head? with
  | none => s
  | some m0 =>
    if m0 &&& 0x0000ffff = 0x1111 then
      { s with
        rssi := some (s.magic.map fun m => (layoutA m).1)
        fc := some (s.magic.map fun m => (layoutA m).2.1)
        magic := s.magic.map fun m => (layoutA m).2.2 }
    else
      { s with
        rssi := some (s.magic.map fun m => (layoutB m).1)
        fc := some (s.magic.map fun m => (layoutB m).2.1)
        magic := s.magic.map fun m => (layoutB m).2.2 }

/-- Modelled from the spec (§4.4): the per-datagram result of the pcap /
signature filter of the `_csiread.Nexmon` extension.  `recognized` is true
exactly for UDP datagrams matching the Nexmon CSI injection signature; a
recognized datagram carries the fixed-offset metadata block whose fields are
appended to the buffer.  The datagram-level byte parsing itself lives in the
C extension and is not needed by any claim, so a packet is modelled as its
decoded field set. -/
structure NexPacket where
  recognized : Bool
  sec : Int
  usec : Int
  caplen : Int
  wirelen : Int
  magic : Nat
  src_addr : List Int
  seq : Int
  core : Int
  spatial : Int
  chan_spec : Int
  chip_version : Int
  csi : List Int
  deriving DecidableEq

/-- A recognized packet with the given magic and zeroed remaining fields. -/
def mkPkt (m : Nat) : NexPacket :=
  { recognized := true, sec := 0, usec := 0, caplen := 0, wirelen := 0,
    magic := m, src_addr := [], seq := 0, core := 0, spatial := 0,
    chan_spec := 0, chip_version := 0, csi := [] }

/-- Append one decoded record's fields to every column of the buffer. -/
def appendPacket (s : NexmonState) (p : NexPacket) : NexmonState :=
  { s with
    sec := s.sec ++ [p.sec], usec := s.usec ++ [p.usec],
    caplen := s.caplen ++ [p.caplen], wirelen := s.wirelen ++ [p.wirelen],
    magic := s.magic ++ [p.magic], src_addr := s.src_addr ++ [p.src_addr],
    seq := s.seq ++ [p.seq], core := s.core ++ [p.core],
    spatial := s.spatial ++ [p.spatial], chan_spec := s.chan_spec ++ [p.chan_spec],
    chip_version := s.chip_version ++ [p.chip_version], csi := s.csi ++ [p.csi] }

/-- Modelled from the spec (§4.4, §6): the record-appending loop shared by the
extension's batch `read` and `seek`: recognized datagrams are appended in
order, others are skipped without advancing `count`. -/
def Nexmon_decodeInto (s : NexmonState) (file : List NexPacket) : NexmonState :=
  file.foldl (fun st p => if p.recognized then appendPacket st p else st) s

/-- `Nexmon.read` (core.py line 501-511): delegates to the extension's batch
decode.  `NexmonPull46` inherits this method unchanged — no `__pull46` step. -/
def Nexmon_read (file : List NexPacket) (s : NexmonState) : NexmonState :=
  Nexmon_decodeInto s file

/-- `Nexmon.seek` (core.py lines 513-537): decode `num` packets starting at
position `pos` (all remaining when `num = 0`), appending to the buffer.
Modelled from the spec at packet granularity (byte offsets of the real file
become packet indices). -/
def Nexmon_seek (file : List NexPacket) (pos num : Nat) (s : NexmonState) :
    NexmonState :=
  Nexmon_decodeInto s
    (if num = 0 then file.drop pos else (file.drop pos).take num)

/-- Modelled from the spec (§6) and the `Nexmon.pmsg` docstring (core.py lines
539-565): decode exactly one datagram; on a recognized CSI packet append it and
return the success marker `0xf100`, otherwise leave the buffer unchanged and
return a non-success code (modelled as `0`). -/
def Nexmon_pmsg (d : NexPacket) (s : NexmonState) : Nat × NexmonState :=
  if d.recognized then (0xf100, appendPacket s d) else (0, s)

/-- `NexmonPull46.__init__` (core.py lines 604-608): the inherited construction
followed by `rssi = None`, `fc = None` — i.e. the empty buffer. -/
def NexmonPull46_init : NexmonState := Nexmon_emptyState

/-- `NexmonPull46.seek` (core.py lines 616-619): `super().seek(...)` then
`self.__pull46()`. -/
def NexmonPull46_seek (file : List NexPacket) (pos num : Nat)
    (s : NexmonState) : NexmonState :=
  pull46 (Nexmon_seek file pos num s)

/-- `NexmonPull46.pmsg` (core.py lines 621-636): `super().pmsg(data, endian)`
(whose status code is discarded), then `self.__pull46()`, then
`return 0xf101` — unconditionally. -/
def NexmonPull46_pmsg (d : NexPacket) (s : NexmonState) : Nat × NexmonState :=
  let r := Nexmon_pmsg d s
  (0xf101, pull46 r.2)

/-- A value stored under one key of the mapping returned by `__getitem__`:
either a numeric scalar or a (possibly nested, here flattened) array. -/
inductive FieldVal
  | scalar (z : Int)
  | vec (l : List Int)
  deriving DecidableEq

/-- One record of the Intel session buffer, with every per-packet field the
buffer holds (the ndarray attributes of the `Intel` class docstring,
core.py lines 25-57): the 0xbb fields, the 0xc1 frame fields, and the
trailing MAC payload. -/
structure IntelRecord where
  timestamp_low : Int
  bfee_count : Int
  Nrx : Int
  Ntx : Int
  rssi_a : Int
  rssi_b : Int
  rssi_c : Int
  noise : Int
  agc : Int
  perm : List Int
  rate : Int
  csi : List Int
  stp : Int
  fc : Int
  dur : Int
  addr_des : List Int
  addr_src : List Int
  addr_bssid : List Int
  seq : Int
  payload : List Int
  deriving DecidableEq

/-- `Intel.__getitem__` (core.py lines 78-93): the returned dict, as an
association list in the source's key order. -/
def Intel_getitem (r : IntelRecord) : List (String × FieldVal) :=
  [("timestamp_low", .scalar r.timestamp_low),
   ("bfee_count", .scalar r.bfee_count),
   ("Nrx", .scalar r.Nrx),
   ("Ntx", .scalar r.Ntx),
   ("rssi_a", .scalar r.rssi_a),
   ("rssi_b", .scalar r.rssi_b),
   ("rssi_c", .scalar r.rssi_c),
   ("noise", .scalar r.noise),
   ("agc", .scalar r.agc),
   ("perm", .vec r.perm),
   ("rate", .scalar r.rate),
   ("csi", .vec r.csi)]

/-- The names of the per-packet ndarray fields held by the Intel session
buffer, as listed by the `Intel` class docstring (core.py lines 25-57). -/
def Intel_bufferFields : List String :=
  ["timestamp_low", "bfee_count", "Nrx", "Ntx", "rssi_a", "rssi_b", "rssi_c",
   "noise", "agc", "perm", "rate", "csi", "stp", "fc", "dur", "addr_des",
   "addr_src", "addr_bssid", "seq", "payload"]

/-- An arbitrary concrete Intel record (all fields zero / empty). -/
def sampleIntelRecord : IntelRecord :=
  { timestamp_low := 0, bfee_count := 0, Nrx := 0, Ntx := 0, rssi_a := 0,
    rssi_b := 0, rssi_c := 0, noise := 0, agc := 0, perm := [], rate := 0,
    csi := [], stp := 0, fc := 0, dur := 0, addr_des := [], addr_src := [],
    addr_bssid := [], seq := 0, payload := [] }

/-- One record of the Atheros session buffer (the fields read by
`Atheros.__getitem__`, core.py lines 321-341). -/
structure AtherosRecord where
  timestamp : Int
  csi_len : Int
  tx_channel : Int
  err_info : Int
  noise_floor : Int
  Rate : Int
  bandWidth : Int
  num_tones : Int
  nr : Int
  nc : Int
  rssi : Int
  rssi_1 : Int
  rssi_2 : Int
  rssi_3 : Int
  payload_len : Int
  csi : List Int
  payload : List Int
  deriving DecidableEq

/-- `Atheros.__getitem__` (core.py lines 321-341): the returned dict, as an
association list in the source's key order. -/
def Atheros_getitem (r : AtherosRecord) : List (String × FieldVal) :=
  [("timestamp", .scalar r.timestamp),
   ("csi_len", .scalar r.csi_len),
   ("tx_channel", .scalar r.tx_channel),
   ("err_info", .scalar r.err_info),
   ("noise_floor", .scalar r.noise_floor),
   ("Rate", .scalar r.Rate),
   ("bandWidth", .scalar r.bandWidth),
   ("num_tones", .scalar r.num_tones),
   ("nr", .scalar r.nr),
   ("nc", .scalar r.nc),
   ("rssi", .scalar r.rssi),
   ("rssi_1", .scalar r.rssi_1),
   ("rssi_2", .scalar r.rssi_2),
   ("rssi_3", .scalar r.rssi_3),
   ("payload_len", .scalar r.payload_len),
   ("csi", .vec r.csi),
   ("payload", .vec r.payload)]

/-- An arbitrary concrete Atheros record (all fields zero / empty). -/
def sampleAtherosRecord : AtherosRecord :=
  { timestamp := 0, csi_len := 0, tx_channel := 0, err_info := 0,
    noise_floor := 0, Rate := 0, bandWidth := 0, num_tones := 0, nr := 0,
    nc := 0, rssi := 0, rssi_1 := 0, rssi_2 := 0, rssi_3 := 0,
    payload_len := 0, csi := [], payload := [] }

/-- The names of the per-packet ndarray fields held by the Nexmon session
buffer, as listed by the `Nexmon` class docstring (core.py lines 449-471). -/
def Nexmon_bufferFields : List String :=
  ["sec", "usec", "caplen", "wirelen", "magic", "src_addr", "seq", "core",
   "spatial", "chan_spec", "chip_version", "csi"]

/-- `Nexmon.__getitem__` (core.py lines 488-499): index the buffer's columns,
returning the dict in the source's key order; an out-of-range index raises
(modelled as `none`). -/
def Nexmon_getitem (s : NexmonState) (i : Nat) :
    Option (List (String × FieldVal)) :=
  if i < s.magic.length then
    some [("magic", .scalar (s.magic.getD i 0 : Nat)),
          ("src_addr", .vec (s.src_addr.getD i [])),
          ("seq", .scalar (s.seq.getD i 0)),
          ("core", .scalar (s.core.getD i 0)),
          ("spatial", .scalar (s.spatial.getD i 0)),
          ("chan_spec", .scalar (s.chan_spec.getD i 0)),
          ("chip_version", .scalar (s.chip_version.getD i 0)),
          ("csi", .vec (s.csi.getD i []))]
  else none

/-- `NexmonPull46.__getitem__` (core.py lines 610-614):
`ret = super().__getitem__(index); ret['rssi'] = self.rssi[index];
ret['fc'] = self.fc[index]`.  When `rssi` / `fc` are still `None` the
subscript raises `TypeError`; when the index is out of range it raises
`IndexError` — both modelled as `none`. -/
def NexmonPull46_getitem (s : NexmonState) (i : Nat) :
    Option (List (String × FieldVal)) :=
  match Nexmon_getitem s i, s.rssi, s.fc with
  | some ret, some rs, some fs =>
    if i < rs.length ∧ i < fs.length then
      some (ret ++ [("rssi", .scalar (rs.getD i 0)),
                    ("fc", .scalar (fs.getD i 0 : Nat))])
    else none
  | _, _, _ => none

/-- The runtime-selectable byte order of the Atheros decoders. -/
inductive Endian
  | little
  | big
  deriving DecidableEq

/-- Read a 16-bit unsigned integer from two bytes in the given byte order. -/
def readU16 (e : Endian) (b0 b1 : Nat) : Nat :=
  match e with
  | .little => b0 + 256 * b1
  | .big => 256 * b0 + b1

/-- Modelled from the spec (§4.3): the minimum Atheros record size — the fixed
header (timestamp 8, csi_len 2, tx_channel 2, err_info 1, noise_floor 1,
Rate 1, bandWidth/tones 1, nr 1, nc 1, four RSSI bytes, payload_len 2). -/
def athMinSize : Nat := 24

/-- Modelled from the spec (§4.3): the record loop of `_csiread.Atheros.seek`:
repeatedly read a 2-byte record length in the selected byte order and take
that many bytes as one record, stopping at a length shorter than the minimum
header size or longer than the remaining bytes.  Each produced record is
tagged with the byte order its payload was decoded with.  `fuel` is the loop
measure (each iteration consumes at least two bytes). -/
def athRecordsF (e : Endian) : Nat → List Nat → List (Endian × List Nat)
  | 0, _ => []
  | fuel + 1, b0 :: b1 :: rest =>
    let len := readU16 e b0 b1
    if athMinSize ≤ len ∧ len ≤ rest.length then
      (e, rest.take len) :: athRecordsF e fuel (rest.drop len)
    else []
  | _ + 1, _ => []

/-- Modelled from the spec (§4.3, §6): `_csiread.Atheros.seek` — decode records
from byte offset `pos` of the file with byte order `e`, `num` of them
(all remaining when `num = 0`). -/
def atherosSeek (file : List Nat) (pos num : Nat) (e : Endian) :
    List (Endian × List Nat) :=
  let rs := athRecordsF e file.length (file.drop pos)
  if num = 0 then rs else rs.take num

/-- `AtherosPull10.read` (core.py lines 576-587): read the first byte of the
file; choose big-endian iff it equals `0xff`; then
`self.seek(self.file, 1, 0, endian)`.  (On an empty file Python's
`f.read(1)` returns `b''`, which differs from `b'\xff'`, giving little.) -/
def AtherosPull10_read (file : List Nat) : List (Endian × List Nat) :=
  let endian := if file.head? = some 0xff then Endian.big else Endian.little
  atherosSeek file 1 0 endian

/-- The endianness decision of `AtherosPull10.read`, as a function of the
file's first byte alone. -/
def pull10Endian (file : List Nat) : Endian :=
  if file.head? = some 0xff then .big else .little

/-- The Intel session buffer columns used by the scaling transforms: complex
CSI entries as rational (re, im) pairs, the three per-chain RSSI fields,
noise, AGC and the per-packet stream count. -/
structure IntelBuffer where
  csi : List (List (ℚ × ℚ))
  rssi_a : List ℚ
  rssi_b : List ℚ
  rssi_c : List ℚ
  noise : List ℚ
  agc : List ℚ
  Ntx : List Nat
  deriving DecidableEq

/-- Modelled from the spec (§4.2): the per-packet calibration factor of
`get_scaled_csi` — total RSS (combined from the three chains and the AGC
setting) referenced against the packet's CSI power and noise.  The
transcendental dB conversions of the published normalization live in the
C extension; over ℚ they are represented by this rational reference ratio,
which preserves the structure (one multiplicative factor per packet derived
from RSS, CSI power and noise). -/
def intelScale (b : IntelBuffer) (k : Nat) : ℚ :=
  let rssPwr := b.rssi_a.getD k 0 + b.rssi_b.getD k 0 + b.rssi_c.getD k 0 -
    b.agc.getD k 0
  let csiPwr := ((b.csi.getD k []).map fun z => z.1 * z.1 + z.2 * z.2).sum
  rssPwr / (csiPwr / 30 + b.noise.getD k 0)

/-- Modelled from the spec (§4.2): the scaled channel matrix — every CSI entry
of packet `k` multiplied by that packet's calibration factor. -/
def scaledCsi (b : IntelBuffer) : List (List (ℚ × ℚ)) :=
  (List.range b.csi.length).map fun k =>
    (b.csi.getD k []).map fun z =>
      (z.1 * intelScale b k, z.2 * intelScale b k)

/-- Modelled from the spec (§4.2): `apply_sm` — undo the firmware's spatial
mapping by a linear transform selected by the packet's stream count; for two
streams adjacent stream pairs are combined by the (rationalised) unitary
butterfly, otherwise the record is returned unchanged. -/
def smButterfly : List (ℚ × ℚ) → List (ℚ × ℚ)
  | a :: b :: rest =>
    ((a.1 + b.1) / 2, (a.2 + b.2) / 2) ::
      ((a.1 - b.1) / 2, (a.2 - b.2) / 2) :: smButterfly rest
  | l => l

/-- Modelled from the spec (§4.2): apply the spatial-demapping transform to
every packet of a scaled channel matrix. -/
def apply_sm (b : IntelBuffer) (H : List (List (ℚ × ℚ))) :
    List (List (ℚ × ℚ)) :=
  (List.range H.length).map fun k =>
    if b.Ntx.getD k 1 = 2 then smButterfly (H.getD k []) else H.getD k []

/-- Modelled from the spec (§4.2): `Intel.get_scaled_csi(inplace)` — compute
the scaled channel matrix; if `inplace`, overwrite the buffer's `csi` column
with it, otherwise leave the buffer untouched; either way return it. -/
def get_scaled_csi (b : IntelBuffer) (inplace : Bool) :
    IntelBuffer × List (List (ℚ × ℚ)) :=
  let H := scaledCsi b
  (if inplace then { b with csi := H } else b, H)

/-- Modelled from the spec (§4.2): `Intel.get_scaled_csi_sm(inplace)` — the
scaled channel matrix with the spatial mapping removed; same in-place
convention as `get_scaled_csi`. -/
def get_scaled_csi_sm (b : IntelBuffer) (inplace : Bool) :
    IntelBuffer × List (List (ℚ × ℚ)) :=
  let H := apply_sm b (scaledCsi b)
  (if inplace then { b with csi := H } else b, H)

/-- The error taxonomy of spec §7 (the constructors a claim needs). -/
inductive CsiError
  | unsupportedProfile
  | truncatedInput
  | missingSidecar
  deriving DecidableEq

/-- Modelled from the spec (§4.4) and the `Nexmon` class docstring (core.py
lines 441-442): the subcarrier-count table keyed by (chip, bandwidth) —
chips `4339`, `43455c0`, `4358`, `4366c0`; bandwidths 20/40/80 MHz with
64/128/256 subcarriers; every other combination is unmapped. -/
def nexmonSubcarriers (chip : String) (bw : Nat) : Option Nat :=
  if chip = "4339" ∨ chip = "43455c0" ∨ chip = "4358" ∨ chip = "4366c0" then
    match bw with
    | 20 => some 64
    | 40 => some 128
    | 80 => some 256
    | _ => none
  else none

/-- Modelled from the spec (§4.4, §7): `Nexmon.__init__` — look the
(chip, bandwidth) pair up in the subcarrier table; fail with
`UnsupportedProfile` when it is unmapped, otherwise produce the session
(its subcarrier count and an empty buffer) without touching the file. -/
def Nexmon_init (chip : String) (bw : Nat) (file : Option (List NexPacket)) :
    Except CsiError (Nat × NexmonState) :=
  match nexmonSubcarriers chip bw with
  | none => .error .unsupportedProfile
  | some n => .ok (n, Nexmon_emptyState)

/-! ### Bit-extraction helper lemmas -/

theorem and_shiftLeft_shiftRight (m a k : Nat) :
    (m &&& (a <<< k)) >>> k = (m >>> k) &&& a := by
  apply Nat.eq_of_testBit_eq
  intro i
  simp [Nat.testBit_shiftRight, Nat.testBit_and, Nat.testBit_shiftLeft,
    Nat.le_add_right, Nat.add_sub_cancel_left]

theorem extractMask (m k n : Nat) :
    (m &&& ((2 ^ n - 1) <<< k)) >>> k = m / 2 ^ k % 2 ^ n := by
  rw [and_shiftLeft_shiftRight, Nat.and_pow_two_sub_one_eq_mod,
    Nat.shiftRight_eq_div_pow]

theorem and_ffff_eq (m : Nat) : m &&& 0x0000ffff = m % 65536 := by
  have h := Nat.and_pow_two_sub_one_eq_mod m 16
  norm_num at h
  exact h

theorem and_ff_eq (m : Nat) : m &&& 0x000000ff = m % 256 := by
  have h := Nat.and_pow_two_sub_one_eq_mod m 8
  norm_num at h
  exact h

theorem and_ff0000_shr16 (m : Nat) : (m &&& 0x00ff0000) >>> 16 = m / 65536 % 256 := by
  have h := extractMask m 16 8
  rw [Nat.shiftLeft_eq] at h
  norm_num at h
  exact h

theorem and_ff000000_shr24 (m : Nat) :
    (m &&& 0xff000000) >>> 24 = m / 16777216 % 256 := by
  have h := extractMask m 24 8
  rw [Nat.shiftLeft_eq] at h
  norm_num at h
  exact h

theorem and_ff00_shr8 (m : Nat) : (m &&& 0x0000ff00) >>> 8 = m / 256 % 256 := by
  have h := extractMask m 8 8
  rw [Nat.shiftLeft_eq] at h
  norm_num at h
  exact h

theorem and_ffff0000_shr16 (m : Nat) :
    (m &&& 0xffff0000) >>> 16 = m / 65536 % 65536 := by
  have h := extractMask m 16 16
  rw [Nat.shiftLeft_eq] at h
  norm_num at h
  exact h

theorem layoutA_rssi (m : Nat) : (layoutA m).1 = toInt8 (m / 65536 % 256) := by
  simp [layoutA, and_ff0000_shr16]

theorem layoutA_fc (m : Nat) : (layoutA m).2.1 = m / 16777216 % 256 := by
  simp [layoutA, and_ff000000_shr24]

theorem layoutA_magic (m : Nat) : (layoutA m).2.2 = m % 65536 := by
  simp [layoutA, and_ffff_eq]

theorem layoutB_rssi (m : Nat) : (layoutB m).1 = toInt8 (m / 256 % 256) := by
  simp [layoutB, and_ff00_shr8]

theorem layoutB_fc (m : Nat) : (layoutB m).2.1 = m % 256 := by
  simp [layoutB, and_ff_eq]

theorem layoutB_magic (m : Nat) : (layoutB m).2.2 = m / 65536 % 65536 := by
  simp [layoutB, and_ffff0000_shr16]

/-- Reduction of `pull46` when the first record selects the `0x1111` branch. -/
theorem pull46_branchA (s : NexmonState) (m0 : Nat)
    (hhead : s.magic.head? = some m0) (hA : m0 &&& 0x0000ffff = 0x1111) :
    pull46 s = { s with
      rssi := some (s.magic.map fun m => (layoutA m).1)
      fc := some (s.magic.map fun m => (layoutA m).2.1)
      magic := s.magic.map fun m => (layoutA m).2.2 } := by
  unfold pull46
  split
  · next heq => rw [hhead] at heq; cases heq
  · next m1 heq =>
    rw [hhead] at heq
    injection heq with h
    subst h
    rw [if_pos hA]

/-- Reduction of `pull46` when the first record selects the other branch. -/
theorem pull46_branchB (s : NexmonState) (m0 : Nat)
    (hhead : s.magic.head? = some m0) (hB : m0 &&& 0x0000ffff ≠ 0x1111) :
    pull46 s = { s with
      rssi := some (s.magic.map fun m => (layoutB m).1)
      fc := some (s.magic.map fun m => (layoutB m).2.1)
      magic := s.magic.map fun m => (layoutB m).2.2 } := by
  unfold pull46
  split
  · next heq => rw [hhead] at heq; cases heq
  · next m1 heq =>
    rw [hhead] at heq
    injection heq with h
    subst h
    rw [if_neg hB]

/-! ### Claims C1, C2, C10 — the pull-46 bit split -/

/-- C1 (counterexample): the claim says each record is reinterpreted according
to its own magic's low 16 bits; but `__pull46` chooses the branch from
`magic[0]` alone.  In the buffer `[0x0B0A1111, 0x22334455]` the second
record's low 16 bits differ from `0x1111`, so the claim demands the
layout-B rssi `0x44 = 68` for it, yet the code applies layout A to it and
stores `0x33 = 51`. -/
theorem c1_counterexample :
    (0x22334455 &&& 0x0000ffff ≠ 0x1111) ∧
    (pull46 { Nexmon_emptyState with
        magic := [0x0B0A1111, 0x22334455] }).rssi = some [10, 51] ∧
    (layoutB 0x22334455).1 = 68 ∧ ((51 : Int) ≠ 68) := by
  refine ⟨by decide, by decide, by decide, by decide⟩

/-- C1 (amended): `__pull46` selects the layout once, from the FIRST record's
magic: if `magic[0]`'s low 16 bits equal `0x1111` every record gets layout A
(rssi = sign-extended bits 16-23, fc = bits 24-31, magic collapsed to its
low 16 bits), otherwise every record gets layout B (rssi = sign-extended
bits 8-15, fc = bits 0-7, magic right-shifted by 16). -/
theorem c1_amended (s : NexmonState) (m0 : Nat)
    (hhead : s.magic.head? = some m0) (hw : ∀ m ∈ s.magic, m < 2 ^ 32) :
    (m0 % 65536 = 0x1111 →
      (pull46 s).rssi = some (s.magic.map fun m => toInt8 (m / 65536 % 256)) ∧
      (pull46 s).fc = some (s.magic.map fun m => m / 16777216 % 256) ∧
      (pull46 s).magic = s.magic.map fun m => m % 65536) ∧
    (m0 % 65536 ≠ 0x1111 →
      (pull46 s).rssi = some (s.magic.map fun m => toInt8 (m / 256 % 256)) ∧
      (pull46 s).fc = some (s.magic.map fun m => m % 256) ∧
      (pull46 s).magic = s.magic.map fun m => m / 65536) := by
  constructor
  · intro hc
    rw [pull46_branchA s m0 hhead (by rw [and_ffff_eq]; exact hc)]
    refine ⟨?_, ?_, ?_⟩ <;> simp [layoutA_rssi, layoutA_fc, layoutA_magic]
  · intro hc
    rw [pull46_branchB s m0 hhead (by rw [and_ffff_eq]; exact hc)]
    refine ⟨?_, ?_, ?_⟩
    · simp [layoutB_rssi]
    · simp [layoutB_fc]
    · simp only [layoutB_magic]
      apply List.map_congr_left
      intro m hm
      exact Nat.mod_eq_of_lt
        (Nat.div_lt_of_lt_mul (by simpa [Nat.pow_succ] using hw m hm))

/-- C1 (witness for the amended theorem): the amended description evaluated on
a concrete one-record buffer for each branch. -/
theorem c1_amended_witness :
    (pull46 { Nexmon_emptyState with magic := [0x0B0A1111] }).rssi =
      some (([0x0B0A1111] : List Nat).map fun m => toInt8 (m / 65536 % 256)) ∧
    (pull46 { Nexmon_emptyState with magic := [0x22334455] }).magic =
      ([0x22334455] : List Nat).map fun m => m / 65536 :=
  ⟨((c1_amended { Nexmon_emptyState with magic := [0x0B0A1111] } 0x0B0A1111
      rfl (by decide)).1 (by decide)).1,
   ((c1_amended { Nexmon_emptyState with magic := [0x22334455] } 0x22334455
      rfl (by decide)).2 (by decide)).2.2⟩

/-- C2 (counterexample): the claim says magic `0x11110A0B` selects layout A;
but its LOW 16 bits are `0x0A0B ≠ 0x1111` (only its high 16 bits are
`0x1111`), so `__pull46` takes the other branch: the adapter's collapsed
magic is `0x1111` whereas layout A would have collapsed it to `0x0A0B`,
and layout A's rssi there would be `0x11 = 17`, not the claimed `0x0A`. -/
theorem c2_counterexample :
    (0x11110A0B &&& 0x0000ffff ≠ 0x1111) ∧
    (pull46 { Nexmon_emptyState with magic := [0x11110A0B] }).magic =
      [0x1111] ∧
    (layoutA 0x11110A0B).2.2 = 0x0A0B ∧ ((0x1111 : Nat) ≠ 0x0A0B) ∧
    (layoutA 0x11110A0B).1 = 17 := by
  refine ⟨by decide, by decide, by decide, by decide, by decide⟩

/-- C2 (amended): magic `0x11223344` (low 16 bits `0x3344 ≠ 0x1111`) selects
layout B, extracting rssi `0x33 = 51` and fc `0x44`; magic `0x11110A0B`
(low 16 bits `0x0A0B ≠ 0x1111`) ALSO selects layout B, which extracts
rssi `0x0A` sign-extended and fc `0x0B`, collapsing magic to `0x1111`. -/
theorem c2_amended :
    (0x11223344 &&& 0x0000ffff ≠ 0x1111) ∧
    (pull46 { Nexmon_emptyState with magic := [0x11223344] }).rssi =
      some [0x33] ∧
    (pull46 { Nexmon_emptyState with magic := [0x11223344] }).fc =
      some [0x44] ∧
    (pull46 { Nexmon_emptyState with magic := [0x11223344] }).magic =
      [0x1122] ∧
    (0x11110A0B &&& 0x0000ffff ≠ 0x1111) ∧
    (pull46 { Nexmon_emptyState with magic := [0x11110A0B] }).rssi =
      some [0x0A] ∧
    (pull46 { Nexmon_emptyState with magic := [0x11110A0B] }).fc =
      some [0x0B] ∧
    (pull46 { Nexmon_emptyState with magic := [0x11110A0B] }).magic =
      [0x1111] := by
  refine ⟨by decide, by decide, by decide, by decide, by decide, by decide,
    by decide, by decide⟩

theorem layoutA_twice_rssi (m : Nat) : (layoutA ((layoutA m).2.2)).1 = 0 := by
  rw [layoutA_magic, layoutA_rssi,
    Nat.div_eq_of_lt (Nat.lt_of_lt_of_le (Nat.mod_lt m (by norm_num))
      (by norm_num))]
  rfl

theorem layoutA_twice_fc (m : Nat) : (layoutA ((layoutA m).2.2)).2.1 = 0 := by
  rw [layoutA_magic, layoutA_fc,
    Nat.div_eq_of_lt (Nat.lt_of_lt_of_le (Nat.mod_lt m (by norm_num))
      (by norm_num))]

theorem layoutA_twice_magic (m : Nat) :
    (layoutA ((layoutA m).2.2)).2.2 = (layoutA m).2.2 := by
  simp only [layoutA_magic]
  omega

theorem map_constant {α β : Type} (l : List α) (b : β) :
    (l.map fun _ => b) = List.replicate l.length b :=
  List.map_const' l b

/-- C10: `__pull46` is not idempotent.  If the first record's magic has low 16
bits `0x1111` (so layout A collapses it to a value that still tests as
`0x1111`), then a second application — as a subsequent `seek` or `pmsg`
performs — recomputes `rssi` and `fc` from the collapsed magic (whose bits
16-31 are zero), setting `rssi = 0` and `fc = 0` for every record of the
buffer, while the magic column is left at its collapsed value. -/
theorem c10_pull46_not_idempotent (s : NexmonState) (m0 : Nat)
    (hhead : s.magic.head? = some m0) (hA0 : m0 % 65536 = 0x1111) :
    (pull46 (pull46 s)).rssi = some (List.replicate s.magic.length 0) ∧
    (pull46 (pull46 s)).fc = some (List.replicate s.magic.length 0) ∧
    (pull46 (pull46 s)).magic = (pull46 s).magic := by
  have hA : m0 &&& 0x0000ffff = 0x1111 := by rw [and_ffff_eq]; exact hA0
  have h1 := pull46_branchA s m0 hhead hA
  have hhead1 : (pull46 s).magic.head? = some 0x1111 := by
    rw [h1]
    simp only [List.head?_map, hhead, Option.map_some']
    rw [layoutA_magic, hA0]
  have h2 := pull46_branchA (pull46 s) 0x1111 hhead1 (by decide)
  rw [h2, h1]
  simp only [List.map_map, List.length_map, Function.comp_def]
  refine ⟨?_, ?_, ?_⟩
  · rw [List.map_congr_left (fun m _ => layoutA_twice_rssi m),
      map_constant]
  · rw [List.map_congr_left (fun m _ => layoutA_twice_fc m),
      map_constant]
  · exact List.map_congr_left fun m _ => layoutA_twice_magic m

/-- C10 (witness): both applications evaluated on a concrete one-record
buffer whose magic has low 16 bits `0x1111`. -/
theorem c10_witness :
    (pull46 (pull46 { Nexmon_emptyState with magic := [0x0B0A1111] })).rssi =
      some (List.replicate (1 : Nat) 0) :=
  (c10_pull46_not_idempotent
    { Nexmon_emptyState with magic := [0x0B0A1111] } 0x0B0A1111 rfl
    (by decide)).1

/-! ### Claims C3, C5, C9 — the decode operations of a pull-46 session -/

theorem appendPacket_rssi (s : NexmonState) (p : NexPacket) :
    (appendPacket s p).rssi = s.rssi ∧ (appendPacket s p).fc = s.fc :=
  ⟨rfl, rfl⟩

/-- The base decode loop never touches the `rssi` / `fc` columns. -/
theorem decodeInto_rssi_fc (file : List NexPacket) (s : NexmonState) :
    (Nexmon_decodeInto s file).rssi = s.rssi ∧
    (Nexmon_decodeInto s file).fc = s.fc := by
  induction file generalizing s with
  | nil => exact ⟨rfl, rfl⟩
  | cons p f ih =>
    simp only [Nexmon_decodeInto, List.foldl_cons]
    by_cases hp : p.recognized
    · simpa [hp] using ih (appendPacket s p)
    · simpa [hp] using ih s

/-- C3 (counterexample): the claim says that after a `seek` every record in the
buffer is reinterpreted according to that record's OWN magic.  Seeking two
packets with magics `0x0B0A1111` and `0x22334455` into a fresh session, the
second record's low 16 bits are not `0x1111`, so the claim demands its
layout-B rssi `0x44 = 68`; the session instead holds `0x33 = 51`, because
`__pull46` applied the first record's layout to the whole buffer. -/
theorem c3_counterexample :
    (0x22334455 &&& 0x0000ffff ≠ 0x1111) ∧
    (NexmonPull46_seek [mkPkt 0x0B0A1111, mkPkt 0x22334455] 0 0
        NexmonPull46_init).rssi = some [10, 51] ∧
    (layoutB 0x22334455).1 = 68 ∧ ((51 : Int) ≠ 68) := by
  refine ⟨by decide, by decide, by decide, by decide⟩

/-- C3 (amended): after `seek` and after `pmsg` the session's buffer is exactly
the base-decoded buffer with `__pull46` applied once — a single layout,
selected by the FIRST record's magic, reinterpreting every record — while the
inherited batch `read` applies no reinterpretation at all, leaving `rssi` and
`fc` as they were. -/
theorem c3_amended :
    (∀ file pos num s, NexmonPull46_seek file pos num s =
      pull46 (Nexmon_seek file pos num s)) ∧
    (∀ d s, (NexmonPull46_pmsg d s).2 = pull46 (Nexmon_pmsg d s).2) ∧
    (∀ file s, (Nexmon_read file s).rssi = s.rssi ∧
      (Nexmon_read file s).fc = s.fc) := by
  exact ⟨fun _ _ _ _ => rfl, fun _ _ => rfl,
    fun file s => decodeInto_rssi_fc file s⟩

/-- C5: `NexmonPull46.pmsg` returns `0xf101` UNCONDITIONALLY — it discards the
base decoder's status code — so the success marker does not distinguish a
decoded CSI packet from unrecognized input, contradicting the method's own
docstring.  Evaluated at the failing input: an unrecognized datagram fed to
a session holding one record returns `0xf101` yet appends nothing. -/
theorem c5_pmsg_status_bug :
    ((NexmonPull46_pmsg { mkPkt 0 with recognized := false }
        (NexmonPull46_seek [mkPkt 0x0B0A1111] 0 0 NexmonPull46_init)).1 =
      0xf101) ∧
    ((NexmonPull46_pmsg { mkPkt 0 with recognized := false }
        (NexmonPull46_seek [mkPkt 0x0B0A1111] 0 0
          NexmonPull46_init)).2.magic.length = 1) ∧
    (NexmonPull46_seek [mkPkt 0x0B0A1111] 0 0
      NexmonPull46_init).magic.length = 1 ∧
    (∀ d s, (NexmonPull46_pmsg d s).1 = 0xf101) := by
  refine ⟨by decide, by decide, by decide, fun _ _ => rfl⟩

/-- C9: a freshly constructed `NexmonPull46` session has `rssi = None` and
`fc = None`; the inherited batch `read` never touches them, so they remain
`None` after any batch read, and `__getitem__` fails (`TypeError` on
`None[index]`, modelled as `none`) for every index until a `seek` or `pmsg`
first runs `__pull46`. -/
theorem c9_read_leaves_rssi_none (file : List NexPacket) :
    NexmonPull46_init.rssi = none ∧ NexmonPull46_init.fc = none ∧
    (Nexmon_read file NexmonPull46_init).rssi = none ∧
    (Nexmon_read file NexmonPull46_init).fc = none ∧
    ∀ i, NexmonPull46_getitem (Nexmon_read file NexmonPull46_init) i =
      none := by
  have h : (Nexmon_read file NexmonPull46_init).rssi = none ∧
      (Nexmon_read file NexmonPull46_init).fc = none :=
    decodeInto_rssi_fc file NexmonPull46_init
  refine ⟨rfl, rfl, h.1, h.2, ?_⟩
  intro i
  unfold NexmonPull46_getitem
  split
  · next heq1 heq2 heq3 =>
    rw [h.1] at heq2
    cases heq2
  · rfl

/-! ### Claim C4 — AtherosPull10 endianness autodetection -/

/-- Every record produced by the seek loop is decoded with the byte order the
loop was given: the decision is threaded through unchanged, never remade. -/
theorem athRecordsF_endian (e : Endian) (fuel : Nat) :
    ∀ l, ((athRecordsF e fuel l).all fun p => p.1 == e) = true := by
  induction fuel with
  | zero => intro l; rfl
  | succ n ih =>
    intro l
    match l with
    | [] => rfl
    | [b] => rfl
    | b0 :: b1 :: rest =>
      simp only [athRecordsF]
      split
      · simp [ih]
      · rfl

/-- C4: `AtherosPull10.read` decides the byte order from the first byte of the
file alone (big-endian iff that byte is `0xff`), decodes exactly the
remainder of the file from byte offset 1 with it, and that single decision
is the byte order of every decoded record — it is never remade per record. -/
theorem c4_pull10_endian_once (file : List Nat) :
    AtherosPull10_read file = atherosSeek file 1 0 (pull10Endian file) ∧
    (∀ g : List Nat, g.head? = file.head? →
      pull10Endian g = pull10Endian file) ∧
    ((AtherosPull10_read file).all fun p => p.1 == pull10Endian file) =
      true := by
  refine ⟨rfl, ?_, ?_⟩
  · intro g hg
    unfold pull10Endian
    rw [hg]
  · exact athRecordsF_endian (pull10Endian file) file.length (file.drop 1)

/-- C4 (witness): the theorem applied to a concrete file starting with `0xff`:
any file with the same first byte gets the same (big-endian) decision. -/
theorem c4_witness :
    pull10Endian [0xff, 5, 7] = pull10Endian [0xff] ∧
    pull10Endian [0xff] = Endian.big :=
  ⟨(c4_pull10_endian_once [0xff]).2.1 [0xff, 5, 7] rfl, by decide⟩

/-! ### Claim C6 — the record-export lookup -/

/-- C6 (counterexample): the Intel buffer holds a trailing MAC `payload`
column (when `pl_size` is configured), but `Intel.__getitem__` does not
expose a `payload` key — nor `fc`, `dur`, the address fields or `seq`. -/
theorem c6_counterexample :
    "payload" ∈ Intel_bufferFields ∧
    "payload" ∉ (Intel_getitem sampleIntelRecord).map Prod.fst ∧
    "fc" ∈ Intel_bufferFields ∧
    "fc" ∉ (Intel_getitem sampleIntelRecord).map Prod.fst ∧
    "sec" ∈ Nexmon_bufferFields ∧
    "sec" ∉ ((NexmonPull46_getitem
      (NexmonPull46_seek [mkPkt 0x0B0A1111] 0 0 NexmonPull46_init)
      0).getD []).map Prod.fst := by
  refine ⟨by decide, by decide, by decide, by decide, by decide, by decide⟩

/-- C6 (amended): `__getitem__` returns a view keyed by a fixed,
format-specific subset of the buffer's fields: Intel exposes the twelve
0xbb-record fields (omitting `payload` and the 0xc1 frame fields), Atheros
exposes all seventeen including `payload`, Nexmon exposes eight (omitting
the pcap timing fields `sec`, `usec`, `caplen`, `wirelen`), and
`NexmonPull46` appends `rssi` and `fc` to Nexmon's keys. -/
theorem c6_amended (r : IntelRecord) (a : AtherosRecord) (s : NexmonState)
    (i : Nat) (ret : List (String × FieldVal))
    (h : NexmonPull46_getitem s i = some ret) :
    (Intel_getitem r).map Prod.fst =
      ["timestamp_low", "bfee_count", "Nrx", "Ntx", "rssi_a", "rssi_b",
       "rssi_c", "noise", "agc", "perm", "rate", "csi"] ∧
    (Atheros_getitem a).map Prod.fst =
      ["timestamp", "csi_len", "tx_channel", "err_info", "noise_floor",
       "Rate", "bandWidth", "num_tones", "nr", "nc", "rssi", "rssi_1",
       "rssi_2", "rssi_3", "payload_len", "csi", "payload"] ∧
    "payload" ∈ (Atheros_getitem a).map Prod.fst ∧
    ret.map Prod.fst =
      ["magic", "src_addr", "seq", "core", "spatial", "chan_spec",
       "chip_version", "csi", "rssi", "fc"] := by
  refine ⟨rfl, rfl, ?_, ?_⟩
  · show "payload" ∈ ["timestamp", "csi_len", "tx_channel", "err_info",
      "noise_floor", "Rate", "bandWidth", "num_tones", "nr", "nc", "rssi",
      "rssi_1", "rssi_2", "rssi_3", "payload_len", "csi", "payload"]
    decide
  unfold NexmonPull46_getitem at h
  split at h
  · next heq1 heq2 heq3 =>
    split at h
    · injection h with h'
      subst h'
      unfold Nexmon_getitem at heq1
      split at heq1
      · injection heq1 with h1
        subst h1
        rfl
      · cases heq1
    · cases h
  · cases h

/-- C6 (witness for the amended theorem): the lookup evaluated at index 0 of a
concrete populated pull-46 session. -/
theorem c6_amended_witness :
    (NexmonPull46_getitem
        (NexmonPull46_seek [mkPkt 0x0B0A1111] 0 0 NexmonPull46_init) 0).map
      (List.map Prod.fst) =
      some ["magic", "src_addr", "seq", "core", "spatial", "chan_spec",
            "chip_version", "csi", "rssi", "fc"] := by
  have h := c6_amended sampleIntelRecord sampleAtherosRecord
    (NexmonPull46_seek [mkPkt 0x0B0A1111] 0 0 NexmonPull46_init) 0
    [("magic", .scalar 0x1111), ("src_addr", .vec []), ("seq", .scalar 0),
     ("core", .scalar 0), ("spatial", .scalar 0), ("chan_spec", .scalar 0),
     ("chip_version", .scalar 0), ("csi", .vec []), ("rssi", .scalar 10),
     ("fc", .scalar 0x0B)] (by decide)
  rw [show NexmonPull46_getitem
      (NexmonPull46_seek [mkPkt 0x0B0A1111] 0 0 NexmonPull46_init) 0 =
      some [("magic", .scalar 0x1111), ("src_addr", .vec []),
        ("seq", .scalar 0), ("core", .scalar 0), ("spatial", .scalar 0),
        ("chan_spec", .scalar 0), ("chip_version", .scalar 0),
        ("csi", .vec []), ("rssi", .scalar 10), ("fc", .scalar 0x0B)]
    from by decide]
  exact congrArg some h.2.2.2

/-! ### Claim C7 — in-place and copying scaling variants agree -/

/-- C7: on the same buffer contents (a value copy in this pure model), the
in-place and copying variants of `get_scaled_csi` return element-wise
identical channel matrices, the in-place variant stores exactly that matrix
in the buffer's CSI column, and the same holds for `get_scaled_csi_sm`. -/
theorem c7_inplace_equivalence (b : IntelBuffer) :
    (get_scaled_csi b true).2 = (get_scaled_csi b false).2 ∧
    (get_scaled_csi b true).1.csi = (get_scaled_csi b false).2 ∧
    (get_scaled_csi b false).1 = b ∧
    (get_scaled_csi_sm b true).2 = (get_scaled_csi_sm b false).2 ∧
    (get_scaled_csi_sm b true).1.csi = (get_scaled_csi_sm b false).2 ∧
    (get_scaled_csi_sm b false).1 = b :=
  ⟨rfl, rfl, rfl, rfl, rfl, rfl⟩

/-! ### Claim C8 — construction-time profile validation -/

/-- C8: constructing a Nexmon session with a (chip, bandwidth) pair that has no
subcarrier-count mapping fails with `UnsupportedProfile` regardless of the
file — no I/O is involved in the decision — and construction succeeds for
every mapped pair, again for every file. -/
theorem c8_init_unsupported_profile (chip : String) (bw : Nat) :
    (nexmonSubcarriers chip bw = none →
      ∀ file, Nexmon_init chip bw file = .error .unsupportedProfile) ∧
    ∀ n, nexmonSubcarriers chip bw = some n →
      ∀ file, Nexmon_init chip bw file = .ok (n, Nexmon_emptyState) := by
  constructor
  · intro h file
    unfold Nexmon_init
    rw [h]
  · intro n h file
    unfold Nexmon_init
    rw [h]

/-- C8 (witness): an unmapped pair (chip `4358`, bandwidth 30) fails at
construction with `UnsupportedProfile`, and the mapped pair (`4358`, 80)
constructs a session with 256 subcarriers — for a present and an absent
file alike. -/
theorem c8_witness :
    Nexmon_init "4358" 30 none = .error .unsupportedProfile ∧
    Nexmon_init "4358" 80 (some []) = .ok (256, Nexmon_emptyState) :=
  ⟨(c8_init_unsupported_profile "4358" 30).1 (by decide) none,
   (c8_init_unsupported_profile "4358" 80).2 256 (by decide) (some [])⟩

end Csiread
